import Mathlib

/-!
Verification of the IIML Gatekeeper movement ledger and guest-visit workflow.

The definitions below are a shallow embedding of the repository's server
controllers (`movementLogsController.ts`, `guestRequestsController.ts`, the
vendors controller) and of the client-side guards in `GateDashboard.tsx` and
`StudentDashboard.tsx`.  The Supabase store is modelled as an explicit `DB`
value threaded through each operation; timestamps are naturals supplied by the
caller (`now`); `Math.random` draws are supplied as an explicit list of
naturals.  JavaScript string-or-undefined request fields are `Option String`
with JS truthiness made explicit.
-/

/-- Movement direction of a ledger row (the `movement_type` column). -/
inductive MovementType
  | ENTRY
  | EXIT
deriving DecidableEq

/-- Kind of entity a ledger row is about (the `entity_type` column). -/
inductive EntityType
  | STUDENT
  | GUEST
  | VENDOR
deriving DecidableEq

/-- Status of a movement-log row (the `status` column added by migration). -/
inductive LogStatus
  | PENDING
  | COMPLETED
  | REJECTED
deriving DecidableEq

/-- Status of a guest-visit request (`guest_requests.status`). -/
inductive ReqStatus
  | PENDING
  | APPROVED
  | REJECTED
  | EXPIRED
  | COMPLETED
deriving DecidableEq

/-- One row of the `movement_logs` table. -/
structure MovementLog where
  id : Nat
  movement_type : MovementType
  entity_type : EntityType
  gate_user_id : Option String
  student_id : Option String
  guest_id : Option String
  vendor_id : Option String
  status : LogStatus
  remarks : Option String
  timestamp : Nat
deriving DecidableEq

/-- One row of the `guests` table (child of a guest request). -/
structure Guest where
  id : Nat
  request_id : Nat
  name : String
  relation : String
  mobile : Option String
  entry_code : Option String
deriving DecidableEq

/-- One row of the `guest_requests` table. -/
structure GuestRequest where
  id : Nat
  student_id : String
  purpose : String
  arrival_date : String
  entry_time_start : String
  exit_time_end : String
  vehicle_numbers : Option String
  hostel_room : Option String
  student_mobile : Option String
  status : ReqStatus
  approved_by : Option String
  rejection_reason : Option String
  updated_at : Nat
deriving DecidableEq

/-- The shared relational store: the tables the core mutates, the `users`
table (only its ids are needed, for the approver-existence check), and a
fresh-id allocator standing in for `gen_random_uuid()`. -/
structure DB where
  movement_logs : List MovementLog
  guest_requests : List GuestRequest
  guests : List Guest
  users : List String
  nextId : Nat
deriving DecidableEq

/-- Typed errors returned by the controllers (each is an HTTP 4xx response
in the source; the constructor records which rejection fired). -/
inductive ApiError
  | validation (msg : String)
  | notFound (msg : String)
  | notPending
  | dbError (msg : String)
deriving DecidableEq

/-- JS truthiness of an optional string field: `undefined`, `null` and the
empty string are falsy; every other string is truthy. -/
def truthy : Option String → Bool
  | none => false
  | some s => !s.isEmpty

/-- Embedding of the JS idiom `x || null`: a falsy value is stored as NULL. -/
def orNull (o : Option String) : Option String :=
  if truthy o then o else none

/-- Request body of `POST /movement-logs` (`createMovementLog`).  The two
required enum fields are typed, so the "missing required fields" and
"invalid enum" validations of the source are unrepresentable here; the
remaining validations are modelled faithfully. -/
structure CreateMovementLogBody where
  movementType : MovementType
  entityType : EntityType
  gateUserId : Option String
  studentId : Option String
  guestId : Option String
  vendorId : Option String
  remarks : Option String
deriving DecidableEq

/-- The row `createMovementLog` inserts: exactly the entity id matching
`entityType` is set, the other two are NULL. -/
def newMovementLog (db : DB) (now : Nat) (body : CreateMovementLogBody)
    (status : LogStatus) : MovementLog :=
  { id := db.nextId
    movement_type := body.movementType
    entity_type := body.entityType
    gate_user_id := orNull body.gateUserId
    student_id := if body.entityType = EntityType.STUDENT then body.studentId else none
    guest_id := if body.entityType = EntityType.GUEST then body.guestId else none
    vendor_id := if body.entityType = EntityType.VENDOR then body.vendorId else none
    status := status
    remarks := orNull body.remarks
    timestamp := now }

/-- Embedding of `createMovementLog` in `movementLogsController.ts`: validates the body,
computes `status` (`PENDING` iff STUDENT with no gate user, else
`COMPLETED`), and appends one row.  There is no duplicate-pending check. -/
def createMovementLog (db : DB) (now : Nat) (body : CreateMovementLogBody) :
    DB × Except ApiError MovementLog :=
  if body.entityType ≠ EntityType.STUDENT ∧ truthy body.gateUserId = false then
    (db, .error (.validation "gateUserId is required for GUEST and VENDOR entity types"))
  else if body.entityType = EntityType.STUDENT ∧ truthy body.studentId = false then
    (db, .error (.validation "studentId is required for STUDENT entity type"))
  else if body.entityType = EntityType.GUEST ∧ truthy body.guestId = false then
    (db, .error (.validation "guestId is required for GUEST entity type"))
  else if body.entityType = EntityType.VENDOR ∧ truthy body.vendorId = false then
    (db, .error (.validation "vendorId is required for VENDOR entity type"))
  else
    let status :=
      if body.entityType = EntityType.STUDENT ∧ truthy body.gateUserId = false then
        LogStatus.PENDING
      else LogStatus.COMPLETED
    let log := newMovementLog db now body status
    ({ db with movement_logs := db.movement_logs ++ [log], nextId := db.nextId + 1 },
      .ok log)

/-- Request body of `POST /vendors/movement` (`recordVendorMovement`). -/
structure RecordVendorMovementBody where
  vendorId : Option String
  actionType : MovementType
  gateUserId : Option String
  vehicleNumber : Option String
  remarks : Option String
deriving DecidableEq

/-- The remarks string `recordVendorMovement` builds: `remarks || ''`, then
the vehicle number is appended after a separator, then `finalRemarks || null`. -/
def vendorRemarks (remarks vehicleNumber : Option String) : Option String :=
  let base := if truthy remarks then remarks.getD "" else ""
  let withVehicle :=
    if truthy vehicleNumber then
      if base.isEmpty then "Vehicle: " ++ vehicleNumber.getD ""
      else base ++ " | Vehicle: " ++ vehicleNumber.getD ""
    else base
  if withVehicle.isEmpty then none else some withVehicle

/-- Embedding of `recordVendorMovement` in the vendors controller: requires a vendor and a
gate user, always inserts the row with status COMPLETED. -/
def recordVendorMovement (db : DB) (now : Nat) (body : RecordVendorMovementBody) :
    DB × Except ApiError MovementLog :=
  if !(truthy body.vendorId && truthy body.gateUserId) then
    (db, .error (.validation "vendorId, actionType, and gateUserId are required"))
  else
    let log : MovementLog :=
      { id := db.nextId
        movement_type := body.actionType
        entity_type := EntityType.VENDOR
        gate_user_id := body.gateUserId
        student_id := none
        guest_id := none
        vendor_id := body.vendorId
        status := LogStatus.COMPLETED
        remarks := vendorRemarks body.remarks body.vehicleNumber
        timestamp := now }
    ({ db with movement_logs := db.movement_logs ++ [log], nextId := db.nextId + 1 },
      .ok log)

/-- Response of `getStudentStatus`: the derived occupancy of one student. -/
structure OccupancyStatus where
  isInside : Bool
  lastMovementTime : Option Nat
  lastMovementType : Option MovementType
deriving DecidableEq

/-- The rows `getStudentStatus` queries: the student's COMPLETED movement
logs (`eq student_id`, `eq entity_type STUDENT`, `eq status COMPLETED`). -/
def studentCompletedLogs (db : DB) (studentId : String) : List MovementLog :=
  db.movement_logs.filter fun l =>
    l.student_id == some studentId && l.entity_type == EntityType.STUDENT &&
      l.status == LogStatus.COMPLETED

/-- The single row returned by `order timestamp desc, limit 1`: a row of
maximal timestamp (the first such row in table order). -/
def latestLog : List MovementLog → Option MovementLog
  | [] => none
  | l :: ls =>
    match latestLog ls with
    | none => some l
    | some m => if m.timestamp > l.timestamp then some m else some l

/-- Embedding of `getStudentStatus` in `movementLogsController.ts`: inside by default when
no COMPLETED movement exists, otherwise derived from the latest COMPLETED
movement only. -/
def getStudentStatus (db : DB) (studentId : String) : OccupancyStatus :=
  match latestLog (studentCompletedLogs db studentId) with
  | none => { isInside := true, lastMovementTime := none, lastMovementType := none }
  | some m =>
    { isInside := m.movement_type == MovementType.ENTRY
      lastMovementTime := some m.timestamp
      lastMovementType := some m.movement_type }

/-- Query parameters of `GET /movement-logs` (`getMovementLogs`); `limit`
defaults to 100 in the source. -/
structure MovementLogsQuery where
  studentId : Option String
  entityType : Option EntityType
  movementType : Option MovementType
  status : Option LogStatus
  limit : Nat
deriving DecidableEq

/-- The status filter of `getMovementLogs`: an explicit status is matched
exactly; with no status parameter the ledger defaults to COMPLETED only. -/
def statusFilter (q : Option LogStatus) (l : MovementLog) : Bool :=
  match q with
  | some s => l.status == s
  | none => l.status == LogStatus.COMPLETED

/-- The full row filter of `getMovementLogs`. -/
def matchesQuery (q : MovementLogsQuery) (l : MovementLog) : Bool :=
  statusFilter q.status l &&
  (match q.studentId with
    | some sid => l.student_id == some sid
    | none => true) &&
  (match q.entityType with
    | some e => l.entity_type == e
    | none => true) &&
  (match q.movementType with
    | some m => l.movement_type == m
    | none => true)

/-- The comparator of `order('timestamp', ascending: false)`. -/
def byTimestampDesc (a b : MovementLog) : Bool :=
  b.timestamp ≤ a.timestamp

/-- Embedding of `getMovementLogs` in `movementLogsController.ts`: filter, order newest
first, apply the limit. -/
def getMovementLogs (db : DB) (q : MovementLogsQuery) : List MovementLog :=
  ((db.movement_logs.filter (matchesQuery q)).mergeSort byTimestampDesc).take q.limit

/-- Request body of `PATCH /movement-logs/student/:id`
(`updateStudentMovementRequest`). -/
structure UpdateStudentRequestBody where
  status : LogStatus
  gateUserId : Option String
  rejectionReason : Option String
deriving DecidableEq

/-- The remarks text written on rejection (template literal of the source). -/
def rejectionRemarks (reason : String) : String :=
  "Request rejected by gate staff: " ++ reason

/-- The update payload of `updateStudentMovementRequest` applied to a row:
status, gate user and timestamp are overwritten; remarks are overwritten
with the rejection text only when rejecting with a truthy reason. -/
def applyStudentRequestUpdate (body : UpdateStudentRequestBody) (now : Nat)
    (l : MovementLog) : MovementLog :=
  { l with
    status := body.status
    gate_user_id := body.gateUserId
    timestamp := now
    remarks :=
      if body.status == LogStatus.REJECTED && truthy body.rejectionReason then
        some (rejectionRemarks (body.rejectionReason.getD ""))
      else l.remarks }

/-- The store-level `movement_logs_status_check` constraint added by the
migration that creates the `status` column (`src/unnamed/part_001`): only
PENDING and COMPLETED are storable values.  An UPDATE whose payload writes
any other status is refused by the store with nothing written.  (The
INSERTs of `createMovementLog` and `recordVendorMovement` only ever store
PENDING or COMPLETED, so the constraint is satisfied there by
construction.) -/
def statusCheckOk (s : LogStatus) : Bool :=
  s == LogStatus.PENDING || s == LogStatus.COMPLETED

/-- Embedding of `updateStudentMovementRequest` in `movementLogsController.ts`: validates
the body, fetches the STUDENT row by id, refuses any row that is not
PENDING, else issues the UPDATE with the payload.  The UPDATE is subject to
the store's `movement_logs_status_check`: a payload whose status is not
storable (in particular REJECTED) is refused by the store, the controller
answers with the update error, and the row is left unchanged. -/
def updateStudentMovementRequest (db : DB) (now : Nat) (id : Nat)
    (body : UpdateStudentRequestBody) : DB × Except ApiError MovementLog :=
  if !(body.status == LogStatus.COMPLETED || body.status == LogStatus.REJECTED) then
    (db, .error (.validation "Invalid status. Must be COMPLETED or REJECTED"))
  else if !truthy body.gateUserId then
    (db, .error (.validation "gateUserId is required when updating request"))
  else
    match db.movement_logs.find?
        (fun l => l.id == id && l.entity_type == EntityType.STUDENT) with
    | none => (db, .error (.notFound "Student movement request not found"))
    | some existing =>
      if !(existing.status == LogStatus.PENDING) then
        (db, .error .notPending)
      else if !statusCheckOk body.status then
        (db, .error (.dbError "Failed to update student movement request"))
      else
        ({ db with
            movement_logs := db.movement_logs.map fun l =>
              if l.id == id then applyStudentRequestUpdate body now l else l },
          .ok (applyStudentRequestUpdate body now existing))

/-- One guest of the `createGuestRequest` body. -/
structure GuestInput where
  name : String
  relation : String
  mobile : Option String
deriving DecidableEq

/-- Request body of `POST /guest-requests` (`createGuestRequest`). -/
structure CreateGuestRequestBody where
  studentId : Option String
  purpose : Option String
  arrivalDate : Option String
  entryTimeStart : Option String
  exitTimeEnd : Option String
  vehicleNumbers : Option String
  hostelRoom : Option String
  studentMobile : Option String
  guests : List GuestInput
deriving DecidableEq

/-- The request row `createGuestRequest` inserts: status PENDING, snapshot
fields from the body, no approver. -/
def newGuestRequest (db : DB) (now : Nat) (body : CreateGuestRequestBody) : GuestRequest :=
  { id := db.nextId
    student_id := body.studentId.getD ""
    purpose := body.purpose.getD ""
    arrival_date := body.arrivalDate.getD ""
    entry_time_start := body.entryTimeStart.getD ""
    exit_time_end := body.exitTimeEnd.getD ""
    vehicle_numbers := orNull body.vehicleNumbers
    hostel_room := orNull body.hostelRoom
    student_mobile := orNull body.studentMobile
    status := ReqStatus.PENDING
    approved_by := none
    rejection_reason := none
    updated_at := now }

/-- The guest rows inserted for a new request: ids allocated sequentially by
the store, `entry_code` NULL. -/
def mkGuestRows (requestId firstId : Nat) (gs : List GuestInput) : List Guest :=
  ((List.range gs.length).zip gs).map fun p =>
    { id := firstId + p.1
      request_id := requestId
      name := p.2.name
      relation := p.2.relation
      mobile := orNull p.2.mobile
      entry_code := none }

/-- Embedding of `createGuestRequest` in `guestRequestsController.ts`: validates, inserts
the request row PENDING, then inserts the guest rows; if the guests insert
fails (the `guestsInsertOk` oracle), the just-created request row is deleted
and an error is returned. -/
def createGuestRequest (db : DB) (now : Nat) (body : CreateGuestRequestBody)
    (guestsInsertOk : Bool) : DB × Except ApiError (GuestRequest × List Guest) :=
  if !(truthy body.studentId && truthy body.purpose && truthy body.arrivalDate &&
       truthy body.entryTimeStart && truthy body.exitTimeEnd) then
    (db, .error (.validation
      "studentId, purpose, arrivalDate, entryTimeStart, and exitTimeEnd are required"))
  else if body.guests.isEmpty then
    (db, .error (.validation "At least one guest is required"))
  else
    let request := newGuestRequest db now body
    let db1 := { db with
      guest_requests := db.guest_requests ++ [request], nextId := db.nextId + 1 }
    if !guestsInsertOk then
      ({ db1 with
          guest_requests := db1.guest_requests.filter fun r => !(r.id == request.id) },
        .error (.dbError "Failed to create guests"))
    else
      let rows := mkGuestRows request.id db1.nextId body.guests
      ({ db1 with guests := db1.guests ++ rows, nextId := db1.nextId + rows.length },
        .ok (request, rows))

/-- Request body of `PATCH /guest-requests/:id` (`updateGuestRequestStatus`).
The status is typed, so the five-member enum validation of the source is
structural here. -/
structure UpdateGuestRequestBody where
  status : ReqStatus
  approvedBy : Option String
  rejectionReason : Option String
deriving DecidableEq

/-- The code `Math.floor(1000 + Math.random() * 9000).toString()` generates
from one random draw: a 4-digit string in 1000..9999. -/
def genEntryCode (draw : Nat) : String :=
  toString (1000 + draw % 9000)

/-- One `update guests set entry_code ... where id = gid` statement under the
`guests_entry_code_key` unique constraint: when another row already holds
this code the UPDATE fails; the source logs the error and continues, so the
table is left unchanged. -/
def applyCodeUpdate (guests : List Guest) (gid : Nat) (code : String) : List Guest :=
  if guests.any fun g => !(g.id == gid) && g.entry_code == some code then guests
  else guests.map fun g =>
    if g.id == gid then { g with entry_code := some code } else g

/-- The sequential for-loop over the code updates of one approval. -/
def applyCodeUpdates : List Guest → List (Nat × String) → List Guest
  | guests, [] => guests
  | guests, (gid, code) :: rest => applyCodeUpdates (applyCodeUpdate guests gid code) rest

/-- The update payload of `updateGuestRequestStatus` applied to a request
row: status and `updated_at` always; approver and rejection reason only when
truthy. -/
def applyGuestRequestUpdate (body : UpdateGuestRequestBody) (now : Nat)
    (r : GuestRequest) : GuestRequest :=
  { r with
    status := body.status
    updated_at := now
    approved_by := if truthy body.approvedBy then body.approvedBy else r.approved_by
    rejection_reason :=
      if truthy body.rejectionReason then body.rejectionReason else r.rejection_reason }

/-- The final re-fetch of the request together with its guests. -/
def requestWithGuests (db : DB) (id : Nat) : Option (GuestRequest × List Guest) :=
  (db.guest_requests.find? fun r => r.id == id).map fun r =>
    (r, db.guests.filter fun g => g.request_id == id)

/-- The first write of `updateGuestRequestStatus`: the request row with this
id receives the update payload. -/
def updateRequestRow (db : DB) (now : Nat) (id : Nat)
    (body : UpdateGuestRequestBody) : DB :=
  { db with
    guest_requests := db.guest_requests.map fun r =>
      if r.id == id then applyGuestRequestUpdate body now r else r }

/-- The code-issuance phase of an approval: the ids of the request's guests
still lacking a code are fetched, one random code is generated for each,
and the updates are written one by one. -/
def issueEntryCodes (db : DB) (id : Nat) (draws : List Nat) : DB :=
  let pendingIds := (db.guests.filter fun g =>
    g.request_id == id && g.entry_code == (none : Option String)).map Guest.id
  { db with
    guests := applyCodeUpdates db.guests (pendingIds.zip (draws.map genEntryCode)) }

/-- Embedding of `updateGuestRequestStatus` in `guestRequestsController.ts`:
checks the approver exists when supplied, updates the request row (no
precondition on the current status), and only on APPROVED generates one
random entry code for each guest of the request still lacking one, writing
them one by one under the unique constraint. -/
def updateGuestRequestStatus (db : DB) (now : Nat) (id : Nat)
    (body : UpdateGuestRequestBody) (draws : List Nat) :
    DB × Except ApiError (GuestRequest × List Guest) :=
  if truthy body.approvedBy && !db.users.contains (body.approvedBy.getD "") then
    (db, .error (.validation "Invalid approver"))
  else
    match db.guest_requests.find? fun r => r.id == id with
    | none => (db, .error (.dbError "Failed to update guest request"))
    | some _ =>
      let db2 :=
        if body.status == ReqStatus.APPROVED then
          issueEntryCodes (updateRequestRow db now id body) id draws
        else updateRequestRow db now id body
      match requestWithGuests db2 id with
      | some out => (db2, .ok out)
      | none => (db2, .error (.dbError "Failed to fetch updated request"))

/-- Client-side shape of one guest inside a fetched guest request
(`GuestInfo` of the frontend). -/
structure ClientGuest where
  id : Nat
  name : String
  relation : String
  mobile : Option String
  entryCode : Option String
deriving DecidableEq

/-- Client-side shape of one fetched guest request (the transformed response
the frontend holds in props). -/
structure ClientGuestRequest where
  id : Nat
  studentId : String
  studentName : String
  purpose : String
  status : ReqStatus
  guests : List ClientGuest
deriving DecidableEq

/-- Embedding of `approvedRequests` in `GateDashboard.tsx`: the fetched requests filtered
to status APPROVED. -/
def approvedRequests (requests : List ClientGuestRequest) : List ClientGuestRequest :=
  requests.filter fun r => r.status == ReqStatus.APPROVED

/-- Embedding of the JS `String.prototype.trim`: leading and trailing
whitespace is stripped.  (An executable model; the library `String.trim`
computes the same strings but is not kernel-reducible.) -/
def jsTrim (s : String) : String :=
  String.mk (((s.toList.dropWhile Char.isWhitespace).reverse.dropWhile
    Char.isWhitespace).reverse)

/-- Embedding of `validateGuestCode` in `GateDashboard.tsx`: an empty (trimmed) code is
ignored; otherwise the first guest of an APPROVED request whose `entryCode`
equals the trimmed code is returned with its request; `none` models the
"Invalid Code or Guest not approved" alert. -/
def validateGuestCode (requests : List ClientGuestRequest) (guestCode : String) :
    Option (ClientGuestRequest × ClientGuest) :=
  if (jsTrim guestCode).isEmpty then none
  else
    (approvedRequests requests).findSome? fun req =>
      (req.guests.find? fun g => g.entryCode == some (jsTrim guestCode)).map fun g => (req, g)

/-- Client-side shape of one fetched movement log (the fields the
`StudentDashboard` guard reads). -/
structure ClientMovementLog where
  id : Nat
  userId : String
  type : MovementType
  status : LogStatus
  isVendor : Bool
  isGuest : Bool
  timestamp : Nat
deriving DecidableEq

/-- Embedding of `myMovements` in `StudentDashboard.tsx` restricted to the filter step:
the source additionally sorts newest first, which cannot change the
existence check `openMovementModal` performs on it. -/
def myMovements (logs : List ClientMovementLog) (userId : String) :
    List ClientMovementLog :=
  logs.filter fun l => l.userId == userId && !l.isVendor && !l.isGuest

/-- The `existingPending` lookup of `openMovementModal`: is a PENDING request
of this movement type for this user present in the cached logs? -/
def hasPendingMovement (logs : List ClientMovementLog) (userId : String)
    (ty : MovementType) : Bool :=
  ((myMovements logs userId).find? fun req =>
    req.userId == userId && req.type == ty && req.status == LogStatus.PENDING).isSome

/-- Embedding of `openMovementModal` in `StudentDashboard.tsx` reduced to its decision:
`true` means the request modal opens, `false` means the duplicate alert
fires and no request is submitted. -/
def openMovementModal (logs : List ClientMovementLog) (userId : String)
    (ty : MovementType) : Bool :=
  !hasPendingMovement logs userId ty

/-- Projection of a controller result onto its success value, for stating
and deciding success or failure of a call. -/
def resultOk? {α : Type} : Except ApiError α → Option α
  | .ok a => some a
  | .error _ => none

/-! Concrete store contents and request bodies used to instantiate the
theorems below. -/

/-- An empty store. -/
def emptyDB : DB :=
  { movement_logs := [], guest_requests := [], guests := [], users := [], nextId := 0 }

/-- A store holding one outstanding PENDING ENTRY request of student `s1`. -/
def dbWithPendingEntry : DB :=
  { movement_logs :=
      [ { id := 0, movement_type := .ENTRY, entity_type := .STUDENT, gate_user_id := none,
          student_id := some "s1", guest_id := none, vendor_id := none,
          status := .PENDING, remarks := none, timestamp := 5 } ]
    guest_requests := [], guests := [], users := [], nextId := 1 }

/-- A second self-service ENTRY request of the same student `s1`. -/
def dupBody : CreateMovementLogBody :=
  { movementType := .ENTRY, entityType := .STUDENT, gateUserId := none,
    studentId := some "s1", guestId := none, vendorId := none, remarks := none }

/-- The client-side view of the outstanding PENDING ENTRY request of `s1`. -/
def clientPendingLog : ClientMovementLog :=
  { id := 0, userId := "s1", type := .ENTRY, status := .PENDING,
    isVendor := false, isGuest := false, timestamp := 5 }

/-- A vendor movement body with no gate user. -/
def badVendorBody : RecordVendorMovementBody :=
  { vendorId := some "v1", actionType := .ENTRY, gateUserId := none,
    vehicleNumber := none, remarks := none }

/-- A store with an APPROVED request whose guest holds code 1000, and a
PENDING request whose guest has no code yet. -/
def dbTwoGuestRequests : DB :=
  { movement_logs := []
    guest_requests :=
      [ { id := 1, student_id := "s1", purpose := "visit", arrival_date := "d1",
          entry_time_start := "09:00", exit_time_end := "18:00", vehicle_numbers := none,
          hostel_room := none, student_mobile := none, status := .APPROVED,
          approved_by := some "u1", rejection_reason := none, updated_at := 1 },
        { id := 2, student_id := "s2", purpose := "visit", arrival_date := "d1",
          entry_time_start := "09:00", exit_time_end := "18:00", vehicle_numbers := none,
          hostel_room := none, student_mobile := none, status := .PENDING,
          approved_by := none, rejection_reason := none, updated_at := 2 } ]
    guests :=
      [ { id := 10, request_id := 1, name := "A", relation := "father",
          mobile := none, entry_code := some "1000" },
        { id := 11, request_id := 2, name := "B", relation := "mother",
          mobile := none, entry_code := none } ]
    users := ["u1"]
    nextId := 20 }

/-- An approval of request 2 by the existing user `u1`. -/
def approveBody : UpdateGuestRequestBody :=
  { status := .APPROVED, approvedBy := some "u1", rejectionReason := none }

/-- An already-APPROVED guest request. -/
def approvedReq : GuestRequest :=
  { id := 1, student_id := "s1", purpose := "visit", arrival_date := "d1",
    entry_time_start := "09:00", exit_time_end := "18:00", vehicle_numbers := none,
    hostel_room := none, student_mobile := none, status := .APPROVED,
    approved_by := some "u1", rejection_reason := none, updated_at := 1 }

/-- A store with one already-APPROVED request (id 1) and two known users. -/
def dbApprovedRequest : DB :=
  { movement_logs := []
    guest_requests := [approvedReq]
    guests := []
    users := ["u1", "u2"]
    nextId := 5 }

/-- A second resolution of the same request, now rejecting it as `u2`. -/
def secondResolveBody : UpdateGuestRequestBody :=
  { status := .REJECTED, approvedBy := some "u2", rejectionReason := some "no" }

/-- An already-resolved (COMPLETED) student movement record. -/
def resolvedLog : MovementLog :=
  { id := 0, movement_type := .EXIT, entity_type := .STUDENT,
    gate_user_id := some "g1", student_id := some "s1", guest_id := none,
    vendor_id := none, status := .COMPLETED, remarks := none, timestamp := 8 }

/-- A store holding one already-resolved (COMPLETED) student movement. -/
def dbResolvedMovement : DB :=
  { movement_logs := [resolvedLog]
    guest_requests := [], guests := [], users := [], nextId := 1 }

/-- A valid resolution body (approve as gate user `g1`). -/
def approveMovementBody : UpdateStudentRequestBody :=
  { status := .COMPLETED, gateUserId := some "g1", rejectionReason := none }

/-- A PENDING student EXIT request that carries remarks. -/
def pendingRemarksLog : MovementLog :=
  { id := 0, movement_type := .EXIT, entity_type := .STUDENT, gate_user_id := none,
    student_id := some "s1", guest_id := none, vendor_id := none,
    status := .PENDING, remarks := some "original note", timestamp := 5 }

/-- A store holding one PENDING student EXIT request that carries remarks. -/
def dbPendingWithRemarks : DB :=
  { movement_logs := [pendingRemarksLog]
    guest_requests := [], guests := [], users := [], nextId := 1 }

/-- A rejection of that request with a reason. -/
def rejectMovementBody : UpdateStudentRequestBody :=
  { status := .REJECTED, gateUserId := some "g1", rejectionReason := some "came too late" }

/-- A COMPLETED student movement record for the ledger listing. -/
def completedLog : MovementLog :=
  { id := 0, movement_type := .ENTRY, entity_type := .STUDENT,
    gate_user_id := some "g1", student_id := some "s1", guest_id := none,
    vendor_id := none, status := .COMPLETED, remarks := none, timestamp := 7 }

/-- A store holding one COMPLETED student movement, for the ledger listing. -/
def dbOneCompleted : DB :=
  { movement_logs := [completedLog]
    guest_requests := [], guests := [], users := [], nextId := 1 }

/-- The ledger query with no filters and the default limit. -/
def defaultQuery : MovementLogsQuery :=
  { studentId := none, entityType := none, movementType := none, status := none,
    limit := 100 }

/-- One coded guest as the gate dashboard sees it. -/
def clientCodedGuest : ClientGuest :=
  { id := 10, name := "A", relation := "father", mobile := none,
    entryCode := some "1234" }

/-- One fetched APPROVED request with one coded guest, as the gate dashboard
holds it. -/
def clientApprovedRequest : ClientGuestRequest :=
  { id := 1, studentId := "s1", studentName := "Student One", purpose := "visit",
    status := .APPROVED, guests := [clientCodedGuest] }

/-- A well-formed guest-request body with one guest. -/
def oneGuestBody : CreateGuestRequestBody :=
  { studentId := some "s1", purpose := some "family visit", arrivalDate := some "d1",
    entryTimeStart := some "09:00", exitTimeEnd := some "18:00", vehicleNumbers := none,
    hostelRoom := none, studentMobile := none,
    guests := [ { name := "A", relation := "father", mobile := none } ] }

/-! Theorems. -/

/-- Helper: on a STUDENT body with no gate user and a student id,
`createMovementLog` unconditionally appends one PENDING row — there is no
duplicate-pending check against the store. -/
theorem createMovementLog_student_pending (db : DB) (now : Nat)
    (body : CreateMovementLogBody)
    (hstud : body.entityType = EntityType.STUDENT)
    (hgate : truthy body.gateUserId = false)
    (hsid : truthy body.studentId = true) :
    createMovementLog db now body =
      ({ db with
          movement_logs := db.movement_logs ++ [newMovementLog db now body LogStatus.PENDING]
          nextId := db.nextId + 1 },
        .ok (newMovementLog db now body LogStatus.PENDING)) := by
  unfold createMovementLog
  rw [if_neg (by simp [hstud])]
  rw [if_neg (by simp [hsid])]
  rw [if_neg (by simp [hstud])]
  rw [if_neg (by simp [hstud])]
  rw [if_pos ⟨hstud, hgate⟩]

/-- C1, counterexample: with a PENDING ENTRY request of student `s1` already
outstanding, the very same `createMovementLog` call succeeds instead of
being rejected, and the store then holds two PENDING ENTRY records for
`s1` — the claimed at-most-one invariant is violated. -/
theorem c1_counterexample :
    resultOk? (createMovementLog dbWithPendingEntry 6 dupBody).2 =
      some (newMovementLog dbWithPendingEntry 6 dupBody LogStatus.PENDING) ∧
    ((createMovementLog dbWithPendingEntry 6 dupBody).1.movement_logs.filter fun l =>
        l.student_id == some "s1" && l.movement_type == MovementType.ENTRY &&
          l.status == LogStatus.PENDING).length = 2 := by
  decide

/-- C1 (amended): the duplicate-pending guard exists only client-side —
`openMovementModal` refuses to open the request modal when the cached logs
already contain a PENDING record of the same type for the student — while
the server `createMovementLog` performs no duplicate check at all: on any
store state it succeeds and appends a second PENDING row. -/
theorem c1_duplicate_guard_client_only (logs : List ClientMovementLog) (uid : String)
    (ty : MovementType) (db : DB) (now : Nat) (body : CreateMovementLogBody)
    (hpend : hasPendingMovement logs uid ty = true)
    (hstud : body.entityType = EntityType.STUDENT)
    (hgate : truthy body.gateUserId = false)
    (hsid : truthy body.studentId = true) :
    openMovementModal logs uid ty = false ∧
    resultOk? (createMovementLog db now body).2 =
      some (newMovementLog db now body LogStatus.PENDING) ∧
    (createMovementLog db now body).1.movement_logs =
      db.movement_logs ++ [newMovementLog db now body LogStatus.PENDING] := by
  rw [createMovementLog_student_pending db now body hstud hgate hsid]
  exact ⟨by simp [openMovementModal, hpend], rfl, rfl⟩

/-- C1, witness for the amended theorem at a concrete store. -/
theorem c1_duplicate_guard_client_only_witness :
    openMovementModal [clientPendingLog] "s1" MovementType.ENTRY = false ∧
    resultOk? (createMovementLog dbWithPendingEntry 6 dupBody).2 =
      some (newMovementLog dbWithPendingEntry 6 dupBody LogStatus.PENDING) ∧
    (createMovementLog dbWithPendingEntry 6 dupBody).1.movement_logs =
      dbWithPendingEntry.movement_logs ++
        [newMovementLog dbWithPendingEntry 6 dupBody LogStatus.PENDING] :=
  c1_duplicate_guard_client_only [clientPendingLog] "s1" .ENTRY dbWithPendingEntry 6
    dupBody (by decide) (by decide) (by decide) (by decide)

/-- C3: a created movement record is PENDING exactly when the entity is a
STUDENT and no gate user is supplied (JS-falsy), and is COMPLETED in every
other successful case; a non-STUDENT creation without a gate user is
rejected with no write, both in `createMovementLog` and in
`recordVendorMovement` (whose successful records are always COMPLETED). -/
theorem c3_pending_iff_student_self_service :
    (∀ db now body log, resultOk? (createMovementLog db now body).2 = some log →
        ((log.status = LogStatus.PENDING ↔
            body.entityType = EntityType.STUDENT ∧ truthy body.gateUserId = false) ∧
          (log.status = LogStatus.PENDING ∨ log.status = LogStatus.COMPLETED))) ∧
    (∀ db now body, body.entityType ≠ EntityType.STUDENT →
        truthy body.gateUserId = false →
        (createMovementLog db now body).1 = db ∧
          resultOk? (createMovementLog db now body).2 = none) ∧
    (∀ db now body log, resultOk? (recordVendorMovement db now body).2 = some log →
        log.status = LogStatus.COMPLETED) ∧
    (∀ db now body, truthy body.gateUserId = false →
        (recordVendorMovement db now body).1 = db ∧
          resultOk? (recordVendorMovement db now body).2 = none) := by
  refine ⟨?_, ?_, ?_, ?_⟩
  · intro db now body log h
    unfold createMovementLog at h
    repeat' split at h
    all_goals simp [resultOk?] at h
    · -- status PENDING branch
      subst h
      rename_i hP
      simp [newMovementLog, hP]
    · -- status COMPLETED branch
      subst h
      rename_i hP
      simp [newMovementLog, hP]
  · intro db now body hne hfal
    unfold createMovementLog
    rw [if_pos ⟨hne, hfal⟩]
    exact ⟨rfl, rfl⟩
  · intro db now body log h
    unfold recordVendorMovement at h
    split at h
    · simp [resultOk?] at h
    · simp [resultOk?] at h
      subst h
      rfl
  · intro db now body hfal
    unfold recordVendorMovement
    rw [if_pos (by simp [hfal])]
    exact ⟨rfl, rfl⟩

/-- C3, witness: a vendor movement without a gate user is rejected with the
store unchanged. -/
theorem c3_pending_iff_student_self_service_witness :
    (recordVendorMovement emptyDB 0 badVendorBody).1 = emptyDB ∧
      resultOk? (recordVendorMovement emptyDB 0 badVendorBody).2 = none :=
  c3_pending_iff_student_self_service.2.2.2 emptyDB 0 badVendorBody (by decide)

/-- C4: a student movement record is resolved at most once — with a valid
body, `updateStudentMovementRequest` on a record whose current status is
not PENDING fails with the not-pending rejection and leaves the store
unchanged; moreover, across any call, every PENDING record of the
resulting store was already present unchanged, so a record that has left
PENDING never returns to it. -/
theorem c4_pending_one_shot :
    (∀ db now id body existing,
        (body.status = LogStatus.COMPLETED ∨ body.status = LogStatus.REJECTED) →
        truthy body.gateUserId = true →
        db.movement_logs.find?
            (fun l => l.id == id && l.entity_type == EntityType.STUDENT) = some existing →
        existing.status ≠ LogStatus.PENDING →
        updateStudentMovementRequest db now id body = (db, .error ApiError.notPending)) ∧
    (∀ db now id body l,
        l ∈ (updateStudentMovementRequest db now id body).1.movement_logs →
        l.status = LogStatus.PENDING → l ∈ db.movement_logs) := by
  constructor
  · intro db now id body existing hv hg hfind hnp
    unfold updateStudentMovementRequest
    rw [if_neg (by rcases hv with hv | hv <;> simp [hv])]
    rw [if_neg (by simp [hg])]
    simp only [hfind]
    rw [if_pos (by simp [hnp])]
  · intro db now id body l hmem hpend
    unfold updateStudentMovementRequest at hmem
    split at hmem
    · exact hmem
    split at hmem
    · exact hmem
    split at hmem
    · exact hmem
    split at hmem
    · exact hmem
    split at hmem
    · exact hmem
    rename_i hc0 hc1 hscrut existing heq hc4 hc5
    rcases List.mem_map.mp hmem with ⟨x, hx, hfx⟩
    by_cases hid : (x.id == id) = true
    · exfalso
      rw [if_pos hid] at hfx
      have hst : l.status = body.status := by rw [← hfx]; rfl
      rw [hpend] at hst
      rw [← hst] at hc0
      exact hc0 (by decide)
    · rw [if_neg hid] at hfx
      rw [← hfx]
      exact hx

/-- C4, witness: resolving the already-COMPLETED record 0 a second time is
rejected and the store is unchanged. -/
theorem c4_pending_one_shot_witness :
    updateStudentMovementRequest dbResolvedMovement 50 0 approveMovementBody =
      (dbResolvedMovement, .error ApiError.notPending) :=
  c4_pending_one_shot.1 dbResolvedMovement 50 0 approveMovementBody resolvedLog
    (Or.inl rfl) (by decide) (by decide) (by decide)

/-- Helper: the keyed row update of `updateRequestRow` commutes with the
keyed lookup. -/
theorem find?_guestRequestUpdate (rs : List GuestRequest) (id : Nat)
    (body : UpdateGuestRequestBody) (now : Nat) :
    ((rs.map fun r => if r.id == id then applyGuestRequestUpdate body now r else r).find?
        fun r => r.id == id)
      = (rs.find? fun r => r.id == id).map fun r => applyGuestRequestUpdate body now r := by
  induction rs with
  | nil => rfl
  | cons a rest ih =>
    rw [List.map_cons]
    by_cases h : (a.id == id) = true
    · have h1 : (((if (a.id == id) = true then applyGuestRequestUpdate body now a
          else a)).id == id) = true := by
        rw [if_pos h]; exact h
      rw [List.find?_cons_of_pos (p := fun (r : GuestRequest) => r.id == id) _ h1,
        List.find?_cons_of_pos (p := fun (r : GuestRequest) => r.id == id) _ h, if_pos h]
      rfl
    · have h1 : ¬(((if (a.id == id) = true then applyGuestRequestUpdate body now a
          else a)).id == id) = true := by
        rw [if_neg h]; exact h
      rw [List.find?_cons_of_neg (p := fun (r : GuestRequest) => r.id == id) _ h1,
        List.find?_cons_of_neg (p := fun (r : GuestRequest) => r.id == id) _ h]
      exact ih

/-- Helper: a guest none of the code writes targets passes through the
sequential update loop unchanged. -/
theorem mem_applyCodeUpdates_of_not_targeted :
    ∀ (updates : List (Nat × String)) (guests : List Guest) (g : Guest),
      g ∈ guests → g.id ∉ updates.map Prod.fst → g ∈ applyCodeUpdates guests updates := by
  intro updates
  induction updates with
  | nil => intro guests g hg _; exact hg
  | cons u rest ih =>
    intro guests g hg hnot
    obtain ⟨gid, code⟩ := u
    rw [List.map_cons] at hnot
    have hne : g.id ≠ gid := fun h => hnot (by rw [h]; exact List.mem_cons_self _ _)
    have hrest : g.id ∉ rest.map Prod.fst := fun h => hnot (List.mem_cons_of_mem _ h)
    refine ih _ g ?_ hrest
    unfold applyCodeUpdate
    split
    · exact hg
    · exact List.mem_map.mpr ⟨g, hg, by simp [hne]⟩

/-- C5, counterexample: request 1 is already APPROVED by `u1`, yet a second
resolve call (rejecting as `u2`) succeeds and overwrites both the status
and the approver, so terminal states are not immutable. -/
theorem c5_counterexample :
    (resultOk? (updateGuestRequestStatus dbApprovedRequest 9 1 secondResolveBody []).2).isSome
        = true ∧
    ((updateGuestRequestStatus dbApprovedRequest 9 1 secondResolveBody []).1.guest_requests.find?
        fun r => r.id == 1).map GuestRequest.status = some ReqStatus.REJECTED ∧
    ((updateGuestRequestStatus dbApprovedRequest 9 1 secondResolveBody []).1.guest_requests.find?
        fun r => r.id == 1).map GuestRequest.approved_by = some (some "u2") := by
  decide

/-- C5 (amended): `updateGuestRequestStatus` applies no precondition on the
current status: on any existing request — including one already resolved to
APPROVED or REJECTED — a resolve call with an existing approver succeeds
and overwrites the stored status; only the guests keep their already
assigned entry codes (code writes target only code-less guests). -/
theorem c5_terminal_not_immutable (db : DB) (now : Nat) (id : Nat)
    (body : UpdateGuestRequestBody) (draws : List Nat) (req : GuestRequest)
    (hfind : (db.guest_requests.find? fun r => r.id == id) = some req)
    (happ : truthy body.approvedBy = true →
      db.users.contains (body.approvedBy.getD "") = true)
    (hnodup : (db.guests.map Guest.id).Nodup) :
    (resultOk? (updateGuestRequestStatus db now id body draws).2).isSome = true ∧
    ((updateGuestRequestStatus db now id body draws).1.guest_requests.find?
        fun r => r.id == id).map GuestRequest.status = some body.status ∧
    (∀ g ∈ db.guests, ∀ c, g.entry_code = some c →
        g ∈ (updateGuestRequestStatus db now id body draws).1.guests) := by
  have hcond : (truthy body.approvedBy && !db.users.contains (body.approvedBy.getD ""))
      = false := by
    cases htr : truthy body.approvedBy
    · rfl
    · rw [happ htr]; rfl
  have hfind2 : ((updateRequestRow db now id body).guest_requests.find?
      fun r => r.id == id) = some (applyGuestRequestUpdate body now req) := by
    unfold updateRequestRow
    rw [find?_guestRequestUpdate, hfind]
    rfl
  have hgr : (if (body.status == ReqStatus.APPROVED) = true then
        issueEntryCodes (updateRequestRow db now id body) id draws
      else updateRequestRow db now id body).guest_requests
      = (updateRequestRow db now id body).guest_requests := by
    split
    · rfl
    · rfl
  have hmain : updateGuestRequestStatus db now id body draws =
      ((if (body.status == ReqStatus.APPROVED) = true then
          issueEntryCodes (updateRequestRow db now id body) id draws
        else updateRequestRow db now id body),
        .ok (applyGuestRequestUpdate body now req,
          (if (body.status == ReqStatus.APPROVED) = true then
              issueEntryCodes (updateRequestRow db now id body) id draws
            else updateRequestRow db now id body).guests.filter
            fun g => g.request_id == id)) := by
    unfold updateGuestRequestStatus
    rw [if_neg (by rw [hcond]; exact Bool.false_ne_true)]
    simp only [hfind]
    unfold requestWithGuests
    rw [hgr, hfind2]
    rfl
  have h1 : (updateGuestRequestStatus db now id body draws).1 =
      (if (body.status == ReqStatus.APPROVED) = true then
          issueEntryCodes (updateRequestRow db now id body) id draws
        else updateRequestRow db now id body) := by
    rw [hmain]
  refine ⟨by rw [hmain]; rfl, ?_, ?_⟩
  · rw [h1, hgr, hfind2]
    rfl
  · intro g hg c hc
    rw [h1]
    split
    · show g ∈ (issueEntryCodes (updateRequestRow db now id body) id draws).guests
      unfold issueEntryCodes
      refine mem_applyCodeUpdates_of_not_targeted _ _ _ hg ?_
      intro htarget
      rcases List.mem_map.mp htarget with ⟨⟨gid, code⟩, hpair, hfst⟩
      have hgid : gid = g.id := hfst
      have hin := (List.of_mem_zip hpair).1
      rw [hgid] at hin
      rcases List.mem_map.mp hin with ⟨g2, hg2, hid2⟩
      rcases List.mem_filter.mp hg2 with ⟨hg2mem, hpred⟩
      have hsame : g2 = g := List.inj_on_of_nodup_map hnodup hg2mem hg hid2
      rw [hsame] at hpred
      simp [hc] at hpred
    · exact hg

/-- C5, witness for the amended theorem: the concrete second resolve of the
already-APPROVED request 1 succeeds and stores the new status. -/
theorem c5_terminal_not_immutable_witness :
    (resultOk? (updateGuestRequestStatus dbApprovedRequest 9 1 secondResolveBody []).2).isSome
        = true ∧
    ((updateGuestRequestStatus dbApprovedRequest 9 1 secondResolveBody []).1.guest_requests.find?
        fun r => r.id == 1).map GuestRequest.status = some ReqStatus.REJECTED ∧
    (∀ g ∈ dbApprovedRequest.guests, ∀ c, g.entry_code = some c →
        g ∈ (updateGuestRequestStatus dbApprovedRequest 9 1 secondResolveBody []).1.guests) :=
  c5_terminal_not_immutable dbApprovedRequest 9 1 secondResolveBody [] approvedReq
    (by decide) (by decide) (by decide)

/-- C2, evaluation at the failing input: approving request 2 draws the code
1000, which collides with the code already held by guest 10; the write is
refused by the unique constraint, the loop continues without any retry, and
guest 11 is left APPROVED but with no entry code — even though the very
next random draw (1) would have produced the fresh code 1001, as the last
conjunct shows. -/
theorem c2_no_collision_retry :
    genEntryCode 0 = "1000" ∧
    ((updateGuestRequestStatus dbTwoGuestRequests 7 2 approveBody [0, 1]).1.guests.find?
        fun g => g.id == 11).map Guest.entry_code = some none ∧
    ((updateGuestRequestStatus dbTwoGuestRequests 7 2 approveBody [0, 1]).1.guest_requests.find?
        fun r => r.id == 2).map GuestRequest.status = some ReqStatus.APPROVED ∧
    ((updateGuestRequestStatus dbTwoGuestRequests 7 2 approveBody [1]).1.guests.find?
        fun g => g.id == 11).map Guest.entry_code = some (some "1001") := by
  decide
/-- Helper: the row returned by `order timestamp desc limit 1` exists iff the
list is nonempty, belongs to the list, and has maximal timestamp. -/
theorem latestLog_spec :
    ∀ ls : List MovementLog,
      (latestLog ls = none ↔ ls = []) ∧
      (∀ m, latestLog ls = some m → m ∈ ls ∧ ∀ l ∈ ls, l.timestamp ≤ m.timestamp) := by
  intro ls
  induction ls with
  | nil =>
    refine ⟨by simp [latestLog], ?_⟩
    intro m h
    simp [latestLog] at h
  | cons a rest ih =>
    constructor
    · constructor
      · intro h
        exfalso
        unfold latestLog at h
        cases hrec : latestLog rest with
        | none => simp [hrec] at h
        | some mr =>
          simp only [hrec] at h
          by_cases hb : mr.timestamp > a.timestamp
          · rw [if_pos hb] at h
            exact Option.noConfusion h
          · rw [if_neg hb] at h
            exact Option.noConfusion h
      · intro h
        exact absurd h (List.cons_ne_nil a rest)
    · intro m hm
      unfold latestLog at hm
      cases hrec : latestLog rest with
      | none =>
        simp only [hrec] at hm
        have hrest : rest = [] := ih.1.mp hrec
        subst hrest
        have hma : a = m := Option.some.inj hm
        constructor
        · rw [← hma]
          exact List.mem_singleton_self a
        · intro l hl
          rw [List.mem_singleton.mp hl, ← hma]
      | some mr =>
        simp only [hrec] at hm
        obtain ⟨hmem, hmax⟩ := ih.2 mr hrec
        by_cases hb : mr.timestamp > a.timestamp
        · rw [if_pos hb] at hm
          have hme : mr = m := Option.some.inj hm
          constructor
          · rw [← hme]
            exact List.mem_cons_of_mem _ hmem
          · intro l hl
            rw [← hme]
            rcases List.mem_cons.mp hl with h | h
            · rw [h]
              exact Nat.le_of_lt hb
            · exact hmax l h
        · rw [if_neg hb] at hm
          have hme : a = m := Option.some.inj hm
          constructor
          · rw [← hme]
            exact List.mem_cons_self _ _
          · intro l hl
            rw [← hme]
            rcases List.mem_cons.mp hl with h | h
            · rw [h]
            · exact Nat.le_trans (hmax l h) (Nat.le_of_not_lt hb)

/-- C6: the occupancy of a student is derived from COMPLETED movements only:
with no COMPLETED movement the student is inside by default with a null
last-movement time; otherwise the COMPLETED row of maximal timestamp
determines the result, with inside exactly when it is an ENTRY; and
inserting a non-COMPLETED (PENDING or REJECTED) record anywhere in the
ledger never changes the result. -/
theorem c6_occupancy_from_completed_only :
    (∀ db sid, studentCompletedLogs db sid = [] →
        getStudentStatus db sid =
          { isInside := true, lastMovementTime := none, lastMovementType := none }) ∧
    (∀ db sid, studentCompletedLogs db sid ≠ [] →
        ∃ m ∈ studentCompletedLogs db sid,
          (∀ l ∈ studentCompletedLogs db sid, l.timestamp ≤ m.timestamp) ∧
          getStudentStatus db sid =
            { isInside := m.movement_type == MovementType.ENTRY
              lastMovementTime := some m.timestamp
              lastMovementType := some m.movement_type }) ∧
    (∀ pre post x grs gs us n sid, x.status ≠ LogStatus.COMPLETED →
        getStudentStatus ⟨pre ++ x :: post, grs, gs, us, n⟩ sid =
          getStudentStatus ⟨pre ++ post, grs, gs, us, n⟩ sid) := by
  refine ⟨?_, ?_, ?_⟩
  · intro db sid h
    unfold getStudentStatus
    rw [h]
    rfl
  · intro db sid h
    cases hlat : latestLog (studentCompletedLogs db sid) with
    | none => exact absurd ((latestLog_spec _).1.mp hlat) h
    | some m =>
      obtain ⟨hmem, hmax⟩ := (latestLog_spec _).2 m hlat
      refine ⟨m, hmem, hmax, ?_⟩
      unfold getStudentStatus
      rw [hlat]
  · intro pre post x grs gs us n sid hx
    have hpred : (x.student_id == some sid && x.entity_type == EntityType.STUDENT &&
        x.status == LogStatus.COMPLETED) = false := by
      simp [hx]
    have hfilter : studentCompletedLogs ⟨pre ++ x :: post, grs, gs, us, n⟩ sid =
        studentCompletedLogs ⟨pre ++ post, grs, gs, us, n⟩ sid := by
      unfold studentCompletedLogs
      simp [List.filter_append, List.filter_cons, hpred]
    unfold getStudentStatus
    rw [hfilter]

/-- C6, witness: a student with no movements at all is inside by default. -/
theorem c6_occupancy_from_completed_only_witness :
    getStudentStatus emptyDB "s1" =
      { isInside := true, lastMovementTime := none, lastMovementType := none } :=
  c6_occupancy_from_completed_only.1 emptyDB "s1" (by decide)

/-- C7, counterexample: rejecting the PENDING request that carries the
remarks "original note" does not do what the claim says at all — the
payload writes status REJECTED, which the store refuses under
`movement_logs_status_check` (only PENDING and COMPLETED are storable), so
the call returns an error and the stored record keeps status PENDING, its
remarks "original note" with no rejection note appended, and its original
timestamp. -/
theorem c7_counterexample :
    resultOk? (updateStudentMovementRequest dbPendingWithRemarks 42 0 rejectMovementBody).2
        = none ∧
    ((updateStudentMovementRequest dbPendingWithRemarks 42 0 rejectMovementBody).1.movement_logs.find?
        fun l => l.id == 0).map MovementLog.status = some LogStatus.PENDING ∧
    ((updateStudentMovementRequest dbPendingWithRemarks 42 0 rejectMovementBody).1.movement_logs.find?
        fun l => l.id == 0).map MovementLog.remarks = some (some "original note") ∧
    ((updateStudentMovementRequest dbPendingWithRemarks 42 0 rejectMovementBody).1.movement_logs.find?
        fun l => l.id == 0).map MovementLog.timestamp = some 5 := by
  decide

/-- C7 (amended): on a PENDING student record, resolving with outcome
COMPLETED sets the stored status to COMPLETED, sets the resolving gate
user, and refreshes the timestamp to the resolution time, leaving the
remarks unchanged; resolving with outcome REJECTED never succeeds: the
update payload (which would replace, not append to, the remarks with the
fixed rejection text) violates the store's `movement_logs_status_check`
constraint, so the store refuses the write, the call returns the update
error, and the record is left unchanged. -/
theorem c7_resolution_effect (db : DB) (now : Nat) (id : Nat)
    (body : UpdateStudentRequestBody) (existing : MovementLog)
    (hg : truthy body.gateUserId = true)
    (hfind : db.movement_logs.find?
        (fun l => l.id == id && l.entity_type == EntityType.STUDENT) = some existing)
    (hpend : existing.status = LogStatus.PENDING) :
    (body.status = LogStatus.COMPLETED →
      resultOk? (updateStudentMovementRequest db now id body).2 =
        some (applyStudentRequestUpdate body now existing) ∧
      applyStudentRequestUpdate body now existing ∈
        (updateStudentMovementRequest db now id body).1.movement_logs ∧
      (applyStudentRequestUpdate body now existing).status = LogStatus.COMPLETED ∧
      (applyStudentRequestUpdate body now existing).gate_user_id = body.gateUserId ∧
      (applyStudentRequestUpdate body now existing).timestamp = now ∧
      (applyStudentRequestUpdate body now existing).remarks = existing.remarks) ∧
    (body.status = LogStatus.REJECTED →
      updateStudentMovementRequest db now id body =
        (db, .error (.dbError "Failed to update student movement request"))) := by
  constructor
  · intro hc
    have hmain : updateStudentMovementRequest db now id body =
        ({ db with movement_logs := db.movement_logs.map fun l =>
            if l.id == id then applyStudentRequestUpdate body now l else l },
          .ok (applyStudentRequestUpdate body now existing)) := by
      unfold updateStudentMovementRequest
      rw [if_neg (by simp [hc])]
      rw [if_neg (by simp [hg])]
      simp only [hfind]
      rw [if_neg (by simp [hpend])]
      rw [if_neg (by simp [statusCheckOk, hc])]
    have hid : (existing.id == id) = true :=
      (Bool.and_eq_true _ _).mp
        (List.find?_some
          (p := fun (l : MovementLog) => l.id == id && l.entity_type == EntityType.STUDENT)
          hfind) |>.1
    refine ⟨by rw [hmain]; rfl, ?_, hc, rfl, rfl, ?_⟩
    · rw [hmain]
      exact List.mem_map.mpr
        ⟨existing, List.mem_of_find?_eq_some hfind, by rw [if_pos hid]⟩
    · show (if (body.status == LogStatus.REJECTED && truthy body.rejectionReason) = true
          then some (rejectionRemarks (body.rejectionReason.getD ""))
          else existing.remarks) = existing.remarks
      rw [if_neg (by simp [hc])]
  · intro hr
    unfold updateStudentMovementRequest
    rw [if_neg (by simp [hr])]
    rw [if_neg (by simp [hg])]
    simp only [hfind]
    rw [if_neg (by simp [hpend])]
    rw [if_pos (by simp [statusCheckOk, hr])]

/-- C7, witness: at the concrete store, rejecting the pending request fails
with nothing written, while approving it succeeds with the payload
applied. -/
theorem c7_resolution_effect_witness :
    (updateStudentMovementRequest dbPendingWithRemarks 42 0 rejectMovementBody =
      (dbPendingWithRemarks, .error (.dbError "Failed to update student movement request"))) ∧
    resultOk? (updateStudentMovementRequest dbPendingWithRemarks 42 0 approveMovementBody).2 =
      some (applyStudentRequestUpdate approveMovementBody 42 pendingRemarksLog) :=
  ⟨(c7_resolution_effect dbPendingWithRemarks 42 0 rejectMovementBody pendingRemarksLog
      (by decide) (by decide) (by decide)).2 rfl,
    ((c7_resolution_effect dbPendingWithRemarks 42 0 approveMovementBody pendingRemarksLog
      (by decide) (by decide) (by decide)).1 rfl).1⟩

/-- C8: the gate-dashboard code lookup resolves only through APPROVED
requests — a successful lookup always returns an APPROVED request of the
list together with one of its guests holding exactly the entered (trimmed)
code, and when no APPROVED request holds a guest with that code the lookup
reports not-found, no matter what codes guests of PENDING or REJECTED
requests carry. -/
theorem c8_code_lookup_approved_only :
    (∀ requests code r g, validateGuestCode requests code = some (r, g) →
        r ∈ requests ∧ r.status = ReqStatus.APPROVED ∧ g ∈ r.guests ∧
          g.entryCode = some (jsTrim code)) ∧
    (∀ requests code,
        (∀ r ∈ requests, r.status = ReqStatus.APPROVED →
          ∀ g ∈ r.guests, g.entryCode ≠ some (jsTrim code)) →
        validateGuestCode requests code = none) := by
  constructor
  · intro requests code r g h
    unfold validateGuestCode at h
    split at h
    · exact Option.noConfusion h
    · obtain ⟨l₁, a, l₂, heq, hfa, -⟩ := List.findSome?_eq_some_iff.mp h
      rcases Option.map_eq_some'.mp hfa with ⟨g', hg', hpair⟩
      injection hpair with h1 h2
      subst h1
      subst h2
      have hamem : a ∈ approvedRequests requests := by
        rw [heq]
        exact List.mem_append_right _ (List.mem_cons_self _ _)
      rcases List.mem_filter.mp hamem with ⟨hmem, hstat⟩
      refine ⟨hmem, by simpa using hstat, List.mem_of_find?_eq_some hg', ?_⟩
      have hpg := List.find?_some
        (p := fun (g : ClientGuest) => g.entryCode == some (jsTrim code)) hg'
      simpa using hpg
  · intro requests code hno
    unfold validateGuestCode
    split
    · rfl
    · apply List.findSome?_eq_none_iff.mpr
      intro a ha
      rcases List.mem_filter.mp ha with ⟨hmem, hstat⟩
      have hfind : (a.guests.find? fun g => g.entryCode == some (jsTrim code)) = none := by
        apply List.find?_eq_none.mpr
        intro g hg hpg
        exact hno a hmem (by simpa using hstat) g hg (by simpa using hpg)
      rw [hfind]
      rfl

/-- C8, witness: the concrete code 1234 resolves to the APPROVED request and
its coded guest. -/
theorem c8_code_lookup_approved_only_witness :
    clientApprovedRequest ∈ [clientApprovedRequest] ∧
    clientApprovedRequest.status = ReqStatus.APPROVED ∧
    clientCodedGuest ∈ clientApprovedRequest.guests ∧
    clientCodedGuest.entryCode = some (jsTrim "1234") :=
  c8_code_lookup_approved_only.1 [clientApprovedRequest] "1234" clientApprovedRequest
    clientCodedGuest (by decide)

/-- C9: `getMovementLogs` returns the rows ordered newest first (pairwise
non-increasing timestamps); with no status parameter every returned row is
COMPLETED, and a PENDING row can only ever be returned when status=PENDING
was explicitly requested. -/
theorem c9_ledger_default_completed (db : DB) (q : MovementLogsQuery) :
    (getMovementLogs db q).Pairwise (fun a b => b.timestamp ≤ a.timestamp) ∧
    (q.status = none → ∀ l ∈ getMovementLogs db q, l.status = LogStatus.COMPLETED) ∧
    (∀ l ∈ getMovementLogs db q, l.status = LogStatus.PENDING →
        q.status = some LogStatus.PENDING) := by
  have hmem : ∀ l ∈ getMovementLogs db q, matchesQuery q l = true := by
    intro l hl
    have h1 : l ∈ (db.movement_logs.filter (matchesQuery q)).mergeSort byTimestampDesc :=
      List.mem_of_mem_take hl
    exact (List.mem_filter.mp (List.mem_mergeSort.mp h1)).2
  have hstatus : ∀ l ∈ getMovementLogs db q, statusFilter q.status l = true := by
    intro l hl
    have h := hmem l hl
    unfold matchesQuery at h
    exact ((Bool.and_eq_true _ _).mp
      ((Bool.and_eq_true _ _).mp ((Bool.and_eq_true _ _).mp h).1).1).1
  refine ⟨?_, ?_, ?_⟩
  · have htrans : ∀ a b c : MovementLog, byTimestampDesc a b = true →
        byTimestampDesc b c = true → byTimestampDesc a c = true := by
      intro a b c hab hbc
      simp only [byTimestampDesc, decide_eq_true_eq] at hab hbc ⊢
      exact Nat.le_trans hbc hab
    have htotal : ∀ a b : MovementLog,
        (byTimestampDesc a b || byTimestampDesc b a) = true := by
      intro a b
      simp only [byTimestampDesc, Bool.or_eq_true, decide_eq_true_eq]
      exact Nat.le_total b.timestamp a.timestamp
    have hs := List.sorted_mergeSort htrans htotal (db.movement_logs.filter (matchesQuery q))
    have hp : (getMovementLogs db q).Pairwise (fun a b => byTimestampDesc a b = true) :=
      List.Pairwise.sublist (List.take_sublist _ _) hs
    exact hp.imp fun h => by simpa [byTimestampDesc, decide_eq_true_eq] using h
  · intro hq l hl
    have h := hstatus l hl
    rw [hq] at h
    unfold statusFilter at h
    simpa using h
  · intro l hl hpend
    have h := hstatus l hl
    cases hq : q.status with
    | none =>
      rw [hq] at h
      unfold statusFilter at h
      rw [hpend] at h
      exact absurd h (by decide)
    | some s =>
      rw [hq] at h
      unfold statusFilter at h
      have : l.status = s := by simpa using h
      rw [hpend] at this
      rw [← this]

/-- C9, witness: on a ledger holding one COMPLETED row, the parameterless
query returns it, and the theorem yields that it is COMPLETED. -/
theorem c9_ledger_default_completed_witness :
    completedLog.status = LogStatus.COMPLETED := by
  have h1 : getMovementLogs dbOneCompleted defaultQuery = [completedLog] := by
    unfold getMovementLogs
    rw [show List.filter (matchesQuery defaultQuery) dbOneCompleted.movement_logs
        = [completedLog] from by decide]
    rw [List.mergeSort_singleton]
    decide
  exact (c9_ledger_default_completed dbOneCompleted defaultQuery).2.1 rfl completedLog
    (h1 ▸ List.mem_singleton_self completedLog)

/-- C10: `createGuestRequest` is atomic at its boundary — when the guests
insert fails, the just-created request row is deleted again and an error is
returned, so the three tables are exactly as before the call; and on
success the request is stored together with its (nonempty) guest rows, each
belonging to the returned request and carrying no entry code. -/
theorem c10_create_request_rollback (db : DB) (now : Nat) (body : CreateGuestRequestBody)
    (hfresh : ∀ r ∈ db.guest_requests, r.id ≠ db.nextId) :
    ((createGuestRequest db now body false).1.movement_logs = db.movement_logs ∧
      (createGuestRequest db now body false).1.guest_requests = db.guest_requests ∧
      (createGuestRequest db now body false).1.guests = db.guests ∧
      resultOk? (createGuestRequest db now body false).2 = none) ∧
    (∀ req rows, resultOk? (createGuestRequest db now body true).2 = some (req, rows) →
        rows ≠ [] ∧
        (createGuestRequest db now body true).1.guests = db.guests ++ rows ∧
        ∀ g ∈ rows, g.request_id = req.id ∧ g.entry_code = none) := by
  by_cases hval : (truthy body.studentId && truthy body.purpose && truthy body.arrivalDate &&
      truthy body.entryTimeStart && truthy body.exitTimeEnd) = true
  case neg =>
    have hA : (truthy body.studentId && truthy body.purpose && truthy body.arrivalDate &&
        truthy body.entryTimeStart && truthy body.exitTimeEnd) = false := by
      revert hval
      cases truthy body.studentId && truthy body.purpose && truthy body.arrivalDate &&
        truthy body.entryTimeStart && truthy body.exitTimeEnd
      · intro _; rfl
      · intro hval; exact absurd rfl hval
    have hre : ∀ ok, createGuestRequest db now body ok = (db, .error (.validation
        "studentId, purpose, arrivalDate, entryTimeStart, and exitTimeEnd are required")) := by
      intro ok
      unfold createGuestRequest
      rw [if_pos (by rw [hA]; rfl)]
    refine ⟨by rw [hre false]; exact ⟨rfl, rfl, rfl, rfl⟩, ?_⟩
    intro req rows h
    rw [hre true] at h
    exact Option.noConfusion h
  case pos =>
    by_cases hempty : body.guests.isEmpty = true
    · have hre : ∀ ok, createGuestRequest db now body ok =
          (db, .error (.validation "At least one guest is required")) := by
        intro ok
        unfold createGuestRequest
        rw [if_neg (by simp [hval])]
        rw [if_pos hempty]
      refine ⟨by rw [hre false]; exact ⟨rfl, rfl, rfl, rfl⟩, ?_⟩
      intro req rows h
      rw [hre true] at h
      exact Option.noConfusion h
    · have hmainF : createGuestRequest db now body false =
          ({ db with
              guest_requests := (db.guest_requests ++ [newGuestRequest db now body]).filter
                fun r => !(r.id == (newGuestRequest db now body).id)
              nextId := db.nextId + 1 },
            .error (.dbError "Failed to create guests")) := by
        unfold createGuestRequest
        rw [if_neg (by simp [hval])]
        rw [if_neg hempty]
        rfl
      have hmainT : createGuestRequest db now body true =
          ({ db with
              guest_requests := db.guest_requests ++ [newGuestRequest db now body]
              guests := db.guests ++
                mkGuestRows (newGuestRequest db now body).id (db.nextId + 1) body.guests
              nextId := db.nextId + 1 +
                (mkGuestRows (newGuestRequest db now body).id (db.nextId + 1) body.guests).length },
            .ok (newGuestRequest db now body,
              mkGuestRows (newGuestRequest db now body).id (db.nextId + 1) body.guests)) := by
        unfold createGuestRequest
        rw [if_neg (by simp [hval])]
        rw [if_neg hempty]
        rfl
      have hgr : (db.guest_requests ++ [newGuestRequest db now body]).filter
          (fun r => !(r.id == (newGuestRequest db now body).id)) = db.guest_requests := by
        rw [List.filter_append]
        have h1 : db.guest_requests.filter
            (fun r => !(r.id == (newGuestRequest db now body).id)) = db.guest_requests :=
          List.filter_eq_self.mpr fun r hr => by simp [newGuestRequest, hfresh r hr]
        have h2 : ([newGuestRequest db now body].filter
            fun r => !(r.id == (newGuestRequest db now body).id)) = [] := by simp
        rw [h1, h2, List.append_nil]
      constructor
      · rw [hmainF]
        exact ⟨rfl, hgr, rfl, rfl⟩
      · intro req rows h
        rw [hmainT] at h
        have hpair : (newGuestRequest db now body,
            mkGuestRows (newGuestRequest db now body).id (db.nextId + 1) body.guests)
            = (req, rows) := Option.some.inj h
        injection hpair with hreq hrows
        subst hreq
        subst hrows
        have hlen : (mkGuestRows (newGuestRequest db now body).id (db.nextId + 1)
            body.guests).length = body.guests.length := by
          simp [mkGuestRows]
        refine ⟨?_, by rw [hmainT], ?_⟩
        · intro hnil
          rw [hnil] at hlen
          have : body.guests = [] := List.length_eq_zero.mp hlen.symm
          rw [this] at hempty
          exact hempty rfl
        · intro g hg
          rcases List.mem_map.mp hg with ⟨p, hp, hgp⟩
          rw [← hgp]
          exact ⟨rfl, rfl⟩

/-- C10, witness: on the empty store, the one-guest request with a failing
guests insert leaves every table unchanged and returns an error. -/
theorem c10_create_request_rollback_witness :
    (createGuestRequest emptyDB 3 oneGuestBody false).1.movement_logs = emptyDB.movement_logs ∧
    (createGuestRequest emptyDB 3 oneGuestBody false).1.guest_requests = emptyDB.guest_requests ∧
    (createGuestRequest emptyDB 3 oneGuestBody false).1.guests = emptyDB.guests ∧
    resultOk? (createGuestRequest emptyDB 3 oneGuestBody false).2 = none :=
  (c10_create_request_rollback emptyDB 3 oneGuestBody (by decide)).1
